import Mathlib

/-!
Verification development for the Policy Navigator front end
(`frontend/src/PolicyNavigatorApp.jsx`).  The JavaScript functions
`toDocId`, `getBestText`, `handleUpload` and `handleAsk` are shallowly
embedded as total Lean functions over an inductive model of JSON values,
and the specification's claims about them are settled as theorems.
-/

namespace PolicyNavigator

/-- A JSON value as produced by `response.json()`.  Numbers are modelled as
integers: every number the claims exercise is an integer, and no arithmetic
other than the `+` in the indexed-count update touches them. -/
inductive Json where
  | null : Json
  | bool : Bool → Json
  | num : Int → Json
  | str : String → Json
  | arr : List Json → Json
  | obj : List (String × Json) → Json
deriving Repr

/-- JavaScript truthiness (`Boolean(v)`) restricted to JSON-safe values:
`null`, `false`, `0` and `""` are falsy; every object and array is truthy. -/
def jsTruthy : Json → Bool
  | .null => false
  | .bool b => b
  | .num n => n != 0
  | .str s => s != ""
  | .arr _ => true
  | .obj _ => true

/-- JavaScript property access `v[k]`: a lookup on objects, `undefined`
(modelled as `none`) on every other JSON value. -/
def jsGet : Json → String → Option Json
  | .obj ms, k => (ms.find? (fun kv => kv.1 == k)).map (fun kv => kv.2)
  | _, _ => none

/-- JavaScript `a || d` where `a` is a possibly-undefined JSON value:
the value itself when present and truthy, otherwise the default. -/
def jsOr (a : Option Json) (d : Json) : Json :=
  match a with
  | some v => if jsTruthy v then v else d
  | none => d

mutual
/-- JavaScript `String(v)` coercion on JSON-safe values: strings unchanged,
numbers and booleans rendered, arrays joined with commas (with `null`
elements rendered empty, as `Array.prototype.join` does), objects rendered
as `[object Object]`. -/
def jsToString : Json → String
  | .null => "null"
  | .bool true => "true"
  | .bool false => "false"
  | .num n => toString n
  | .str s => s
  | .arr es => joinElems es
  | .obj _ => "[object Object]"

/-- Comma-join of array elements for `jsToString`, with `null` elements
contributing the empty string. -/
def joinElems : List Json → String
  | [] => ""
  | [.null] => ""
  | [e] => jsToString e
  | .null :: e2 :: es => "," ++ joinElems (e2 :: es)
  | e :: e2 :: es => jsToString e ++ "," ++ joinElems (e2 :: es)
end

/-- Hexadecimal digit character for escape sequences. -/
def hexDigitChar (n : Nat) : Char :=
  if n < 10 then Char.ofNat (48 + n) else Char.ofNat (87 + n)

/-- JSON escaping of a single character, as `JSON.stringify` performs on
string contents. -/
def escapeChar (c : Char) : String :=
  if c = '"' then "\\\""
  else if c = '\\' then "\\\\"
  else if c = '\n' then "\\n"
  else if c = '\r' then "\\r"
  else if c = '\t' then "\\t"
  else if c = '\x08' then "\\b"
  else if c = '\x0c' then "\\f"
  else if c.toNat < 32 then
    "\\u00" ++ String.mk [hexDigitChar (c.toNat / 16), hexDigitChar (c.toNat % 16)]
  else String.singleton c

/-- JSON escaping of a whole string. -/
def jsonEscape (s : String) : String :=
  String.join (s.data.map escapeChar)

/-- Indentation of `n` spaces. -/
def spaces (n : Nat) : String :=
  String.mk (List.replicate n ' ')

mutual
/-- Rendering for `JSON.stringify(v, null, 2)` at nesting level `lvl`: two-space indented
pretty-printing.  Total on the `Json` model (JSON-safe values are acyclic),
so the `catch` branch of the source's fallback is unreachable here. -/
def stringifyAt : Nat → Json → String
  | _, .null => "null"
  | _, .bool true => "true"
  | _, .bool false => "false"
  | _, .num n => toString n
  | _, .str s => "\"" ++ jsonEscape s ++ "\""
  | _, .arr [] => "[]"
  | lvl, .arr (e :: es) =>
    "[\n" ++ stringifyItems (lvl + 2) (e :: es) ++ "\n" ++ spaces lvl ++ "]"
  | _, .obj [] => "\x7b\x7d"
  | lvl, .obj (m :: ms) =>
    "\x7b\n" ++ stringifyMembers (lvl + 2) (m :: ms) ++ "\n" ++ spaces lvl ++ "\x7d"

/-- Array items of the pretty-printer, one per line. -/
def stringifyItems : Nat → List Json → String
  | _, [] => ""
  | lvl, [e] => spaces lvl ++ stringifyAt lvl e
  | lvl, e :: e2 :: es =>
    spaces lvl ++ stringifyAt lvl e ++ ",\n" ++ stringifyItems lvl (e2 :: es)

/-- Object members of the pretty-printer, one per line. -/
def stringifyMembers : Nat → List (String × Json) → String
  | _, [] => ""
  | lvl, [(k, v)] => spaces lvl ++ "\"" ++ jsonEscape k ++ "\": " ++ stringifyAt lvl v
  | lvl, (k, v) :: m2 :: ms =>
    spaces lvl ++ "\"" ++ jsonEscape k ++ "\": " ++ stringifyAt lvl v ++ ",\n" ++
      stringifyMembers lvl (m2 :: ms)
end

/-- Embedding of `JSON.stringify(v, null, 2)` at top level. -/
def jsStringify (v : Json) : String := stringifyAt 0 v

/-- The candidate list built by `getBestText`: the five top-level probes
`answer, output, message, text, result`, then `data?.data?.answer`,
`data?.data?.output`, `data?.data?.message` (the source nests only these
three under `data`).  `none` models a probe that came back `undefined`. -/
def candList (d : Json) : List (Option Json) :=
  [jsGet d "answer", jsGet d "output", jsGet d "message", jsGet d "text",
   jsGet d "result",
   (jsGet d "data").bind (fun v => jsGet v "answer"),
   (jsGet d "data").bind (fun v => jsGet v "output"),
   (jsGet d "data").bind (fun v => jsGet v "message")]

/-- First candidate surviving `.filter(Boolean)`: present and truthy. -/
def bestCand (d : Json) : Option Json :=
  (((candList d).filterMap id).filter jsTruthy).head?

/-- Embedding of `getBestText(data)`: empty string on falsy or absent input,
strings unchanged, otherwise the first truthy candidate coerced with
`String(...)`, falling back to two-space pretty-printed JSON. -/
def getBestText : Option Json → String
  | none => ""
  | some d =>
    if jsTruthy d = false then ""
    else
      match d with
      | .str s => s
      | _ =>
        match bestCand d with
        | some c => jsToString c
        | none => jsStringify d

/-- ASCII letter or digit: exactly the character class `[a-z0-9]` with the
`i` flag of the source's regular expression. -/
def isAsciiAlnum (c : Char) : Bool := c.isAlpha || c.isDigit

/-- Embedding of `name.replace(/\.[^\/.]+$/, "")`: drop a final dot-segment
when the last dot is followed by at least one character and no `/` or `.`
occurs after it; otherwise leave the string unchanged. -/
def stripExt (s : String) : String :=
  let rev := s.data.reverse
  let ext := rev.takeWhile (fun c => c != '.' && c != '/')
  match rev.dropWhile (fun c => c != '.' && c != '/') with
  | '.' :: rest => if ext.isEmpty then s else String.mk rest.reverse
  | _ => s

/-- Embedding of `.replace(/[^a-z0-9]+/gi, "-")` over the character list:
each maximal run of non-alphanumeric characters becomes a single hyphen.
The flag records whether the previous character was part of such a run. -/
def collapseAux : Bool → List Char → List Char
  | _, [] => []
  | inRun, c :: cs =>
    if isAsciiAlnum c then c :: collapseAux false cs
    else if inRun then collapseAux true cs
    else '-' :: collapseAux true cs

/-- Collapse every run of non-alphanumeric characters to one hyphen. -/
def collapseRuns (l : List Char) : List Char := collapseAux false l

/-- ASCII lowercasing of a string, character by character.  It is applied
only after `collapseRuns`, whose output is ASCII, where JavaScript's
`toLowerCase` and `Char.toLower` agree. -/
def strLower (s : String) : String := String.mk (s.data.map Char.toLower)

/-- The part of the document id after the `doc-` prefix. -/
def docIdBody (o : Option String) : String :=
  let n := o.getD "document"
  strLower (String.mk (collapseRuns (stripExt n).data))

/-- Embedding of `toDocId(name = "document")`: strip the extension, collapse
non-alphanumeric runs to hyphens, lowercase, and prefix `doc-`.  `none`
models calling the function with the argument absent. -/
def toDocId (o : Option String) : String := "doc-" ++ docIdBody o

/-! ### Workflow model

`handleUpload` and `handleAsk` are embedded as pure functions from the
component state and the network outcomes to the new state together with the
list of HTTP requests issued.  A thrown-and-caught JavaScript error is an
`Except.error` carrying the error's `message`. -/

/-- The question-submission mode toggle: `"pipeline" | "chat"`. -/
inductive Mode where
  | pipeline : Mode
  | chat : Mode
deriving Repr, DecidableEq

/-- A selected file; only its `name` is observable to the modelled logic. -/
structure FileModel where
  name : String
deriving Repr, DecidableEq

/-- A member of the `items` batch sent to `POST /index`. -/
structure IndexItem where
  id : String
  text : Json
  meta : List (String × Json)
deriving Repr

/-- An HTTP request issued by the component, with its payload. -/
inductive Call where
  | upload : FileModel → Call
  | index : List IndexItem → Call
  | ask : String → Call
  | chat : String → Call
deriving Repr

/-- A completed HTTP response: its status code and the outcome of
`response.json()` (an `error` is a body that fails to parse as JSON). -/
structure HttpResp where
  status : Nat
  body : Except String Json

/-- Embedding of `Response.ok` of the Fetch API: status in the 2xx range. -/
def respOk (r : HttpResp) : Bool := 200 ≤ r.status && r.status < 300

/-- The outcome of one `fetch`: a network-level rejection with an error
message, or a completed response. -/
def FetchOutcome : Type := Except String HttpResp

/-- The React state fields of `PolicyNavigatorApp` that the workflows read
or write.  `extracted`, `lastFilename` and `indexedCount` are `Json` because
the source can store non-string dynamic values in them. -/
structure AppState where
  selectedFile : Option FileModel
  uploading : Bool
  extracted : Json
  indexedCount : Json
  autoIndex : Bool
  lastFilename : Json
  mode : Mode
  question : String
  answer : String
  loadingAsk : Bool
  raw : Json

/-- The initial `useState` values of the component. -/
def initialState : AppState where
  selectedFile := none
  uploading := false
  extracted := .str ""
  indexedCount := .num 0
  autoIndex := true
  lastFilename := .str ""
  mode := .pipeline
  question := ""
  answer := ""
  loadingAsk := false
  raw := .null

/-- Leading and trailing whitespace stripped from a character list. -/
def trimChars (l : List Char) : List Char :=
  ((l.dropWhile Char.isWhitespace).reverse.dropWhile Char.isWhitespace).reverse

/-- Embedding of `String.prototype.trim`: strip leading and trailing
whitespace. -/
def jsTrim (s : String) : String := String.mk (trimChars s.data)

/-- JavaScript `(v).trim()` followed by the truthiness test of the result:
defined on strings, a thrown `TypeError` on any other value. -/
def jsTrimTruthy : Json → Except String Bool
  | .str s => .ok (jsTrim s != "")
  | _ => .error "trim is not a function"

/-- Application of `toDocId` to a dynamic value: the slug on strings, a thrown
`TypeError` (from `.replace`) on any other value. -/
def toDocIdDyn : Json → Except String String
  | .str s => .ok (toDocId (some s))
  | _ => .error "replace is not a function"

/-- ToPrimitive for the `+` operator on JSON-safe values: arrays and objects
convert through their `toString`, primitives are unchanged. -/
def jsPrim : Json → Json
  | .arr es => .str (jsToString (.arr es))
  | .obj ms => .str (jsToString (.obj ms))
  | v => v

/-- ToNumber on the primitives that can reach the numeric branch of `+`
(strings go to the concatenation branch instead). -/
def jsToNum : Json → Int
  | .null => 0
  | .bool b => if b then 1 else 0
  | .num n => n
  | _ => 0

/-- JavaScript `a + b` on JSON-safe values: string concatenation when either
primitive is a string, numeric addition otherwise. -/
def jsAdd (a b : Json) : Json :=
  match jsPrim a, jsPrim b with
  | .str s, pb => .str (s ++ jsToString pb)
  | pa, .str s => .str (jsToString pa ++ s)
  | pa, pb => .num (jsToNum pa + jsToNum pb)

/-- State updates shared by every exit of `handleUpload`'s `try`/`finally`:
the `finally` clears the busy flag; a caught error lands its message,
prefixed with the warning marker, in the extracted-text display. -/
def uploadFinish (st : AppState) (calls : List Call) : AppState × List Call :=
  ({ st with uploading := false }, calls)

/-- The `catch` branch of `handleUpload` followed by its `finally`. -/
def uploadFail (st : AppState) (calls : List Call) (msg : String) :
    AppState × List Call :=
  ({ st with extracted := .str ("⚠️ " ++ msg), uploading := false }, calls)

/-- Embedding of `handleUpload`: no-op without a selected file; otherwise
clear the extracted text and the ask display, perform the upload fetch, and
on success optionally perform the auto-index fetch, accumulating state
updates exactly where the source issues its `set*` calls.  `upRes` and
`ixRes` are the outcomes the network would return for the two fetches; the
returned list records which fetches were actually issued. -/
def handleUpload (st : AppState) (upRes ixRes : FetchOutcome) :
    AppState × List Call :=
  match st.selectedFile with
  | none => (st, [])
  | some f =>
    let st1 : AppState :=
      { st with uploading := true, extracted := .str "", answer := "", raw := .null }
    match upRes with
    | .error msg => uploadFail st1 [.upload f] msg
    | .ok r =>
      if respOk r = false then
        uploadFail st1 [.upload f] ("Upload failed: " ++ toString r.status)
      else
        match r.body with
        | .error msg => uploadFail st1 [.upload f] msg
        | .ok data =>
          let textVal := jsOr (jsGet data "text") (.str "")
          let nameVal := jsOr (jsGet data "filename") (.str f.name)
          let st2 : AppState := { st1 with extracted := textVal, lastFilename := nameVal }
          if st.autoIndex = false then uploadFinish st2 [.upload f]
          else
            match jsTrimTruthy textVal with
            | .error msg => uploadFail st2 [.upload f] msg
            | .ok false => uploadFinish st2 [.upload f]
            | .ok true =>
              match toDocIdDyn nameVal with
              | .error msg => uploadFail st2 [.upload f] msg
              | .ok docId =>
                let items : List IndexItem :=
                  [{ id := docId, text := textVal,
                     meta := [("filename", nameVal), ("source", .str "upload")] }]
                let calls : List Call := [.upload f, .index items]
                match ixRes with
                | .error msg => uploadFail st2 calls msg
                | .ok ix =>
                  if respOk ix = false then
                    uploadFail st2 calls ("Index failed: " ++ toString ix.status)
                  else
                    match ix.body with
                    | .error msg => uploadFail st2 calls msg
                    | .ok j =>
                      let inc := jsOr (jsGet j "upserted") (.num (items.length : Nat))
                      uploadFinish
                        { st2 with indexedCount := jsAdd st2.indexedCount inc }
                        calls

/-- Embedding of `handleAsk`: no-op on a blank question; otherwise clear the
answer and raw displays and fetch `/ask` or `/chat` according to the mode.
The response status is never consulted: any response whose body parses as
JSON is displayed through `getBestText`.  `res` is the outcome the network
would return for the issued fetch. -/
def handleAsk (st : AppState) (res : FetchOutcome) : AppState × List Call :=
  if jsTrim st.question = "" then (st, [])
  else
    let q := jsTrim st.question
    let st1 : AppState := { st with loadingAsk := true, answer := "", raw := .null }
    let call : Call := match st.mode with | .pipeline => .ask q | .chat => .chat q
    match res with
    | .error msg =>
      ({ st1 with answer := "⚠️ " ++ msg, loadingAsk := false }, [call])
    | .ok r =>
      match r.body with
      | .error msg =>
        ({ st1 with answer := "⚠️ " ++ msg, loadingAsk := false }, [call])
      | .ok j =>
        ({ st1 with raw := j, answer := getBestText (some j), loadingAsk := false },
         [call])

/-! ### Helper lemmas -/

theorem uint32_le_iff (a b : UInt32) : (a ≤ b) ↔ (a.toNat ≤ b.toNat) := Iff.rfl

theorem char_isUpper_iff (c : Char) : c.isUpper = true ↔ 65 ≤ c.toNat ∧ c.toNat ≤ 90 := by
  simp [Char.isUpper, decide_eq_true_eq, uint32_le_iff, Char.toNat, UInt32.size]

theorem char_isLower_iff (c : Char) : c.isLower = true ↔ 97 ≤ c.toNat ∧ c.toNat ≤ 122 := by
  simp [Char.isLower, decide_eq_true_eq, uint32_le_iff, Char.toNat, UInt32.size]

theorem char_isDigit_iff (c : Char) : c.isDigit = true ↔ 48 ≤ c.toNat ∧ c.toNat ≤ 57 := by
  simp [Char.isDigit, decide_eq_true_eq, uint32_le_iff, Char.toNat, UInt32.size]

theorem toNat_ofNatAux (m : Nat) (h : m.isValidChar) : (Char.ofNatAux m h).toNat = m := rfl

theorem jsOr_some (v d : Json) : jsOr (some v) d = if jsTruthy v then v else d := rfl

theorem jsOr_none (d : Json) : jsOr none d = d := rfl

theorem char_toLower_toNat (c : Char) (h : 65 ≤ c.toNat ∧ c.toNat ≤ 90) :
    (Char.toLower c).toNat = c.toNat + 32 := by
  have hv : (c.toNat + 32).isValidChar := Or.inl (by omega)
  simp only [Char.toLower, if_pos h, Char.ofNat, dif_pos hv]
  exact toNat_ofNatAux _ hv

theorem char_toLower_id (c : Char) (h : ¬ (65 ≤ c.toNat ∧ c.toNat ≤ 90)) :
    Char.toLower c = c := by
  simp only [Char.toLower, if_neg h]

/-- Every character emitted by `collapseAux` is an ASCII alphanumeric kept
from the input or the hyphen that replaced a run. -/
theorem mem_collapseAux {c : Char} :
    ∀ (b : Bool) (l : List Char), c ∈ collapseAux b l →
      isAsciiAlnum c = true ∨ c = '-' := by
  intro b l
  induction l generalizing b with
  | nil => intro h; cases h
  | cons hd tl ih =>
    intro h
    by_cases ha : isAsciiAlnum hd
    · rw [collapseAux, if_pos ha] at h
      rcases List.mem_cons.mp h with rfl | h2
      · exact .inl ha
      · exact ih false h2
    · cases b with
      | true => rw [collapseAux, if_neg ha, if_pos rfl] at h; exact ih true h
      | false =>
        rw [collapseAux, if_neg ha] at h
        simp only [Bool.false_eq_true, if_false] at h
        rcases List.mem_cons.mp h with rfl | h2
        · exact .inr rfl
        · exact ih true h2

/-- Lowercasing a character that `collapseAux` can emit yields a lowercase
letter, a digit, or a hyphen. -/
theorem char_toLower_docId (c : Char) (h : isAsciiAlnum c = true ∨ c = '-') :
    ((Char.toLower c).isLower || (Char.toLower c).isDigit || (Char.toLower c == '-')) = true := by
  rcases h with h | rfl
  · simp only [isAsciiAlnum, Char.isAlpha, Bool.or_eq_true] at h
    rcases h with (hu | hl) | hd
    · have hr := (char_isUpper_iff c).mp hu
      have := char_toLower_toNat c hr
      have hlow : (Char.toLower c).isLower = true := (char_isLower_iff _).mpr (by omega)
      simp [hlow]
    · have hr := (char_isLower_iff c).mp hl
      rw [char_toLower_id c (by omega)]
      simp [hl]
    · have hr := (char_isDigit_iff c).mp hd
      rw [char_toLower_id c (by omega)]
      simp [hd]
  · decide

/-! ### Claims about `toDocId` -/

/-- Claim C10: for every input filename, `toDocId` returns `doc-` followed
only by lowercase letters, digits and hyphens, and an absent filename yields
`doc-document`. -/
theorem claim10_docId_invariant :
    (∀ o : Option String, toDocId o = "doc-" ++ docIdBody o ∧
      ∀ c ∈ (docIdBody o).data, (c.isLower || c.isDigit || c == '-') = true) ∧
    toDocId none = "doc-document" := by
  refine ⟨fun o => ⟨rfl, fun c hc => ?_⟩, by rfl⟩
  have hdata : (docIdBody o).data =
      (collapseAux false (stripExt (o.getD "document")).data).map Char.toLower := rfl
  rw [hdata] at hc
  rcases List.mem_map.mp hc with ⟨c0, hc0, rfl⟩
  exact char_toLower_docId c0 (mem_collapseAux false _ hc0)

/-- Witness for C10 at the filename `Report v1.pdf` and its character `r`. -/
theorem claim10_witness :
    toDocId (some "Report v1.pdf") = "doc-" ++ docIdBody (some "Report v1.pdf") ∧
    (('r' : Char).isLower || ('r' : Char).isDigit || (('r' : Char) == '-')) = true :=
  ⟨(claim10_docId_invariant.1 (some "Report v1.pdf")).1,
   (claim10_docId_invariant.1 (some "Report v1.pdf")).2 'r' (by decide)⟩

/-- Claim C6: the index item id is the filename with its extension stripped,
non-alphanumeric runs collapsed to single hyphens, lowercased, and prefixed
with `doc-`; in particular `Report v1.pdf` yields `doc-report-v1`.  The
further instances exercise run collapsing and extension stripping. -/
theorem claim6_docId_slug :
    toDocId (some "Report v1.pdf") = "doc-report-v1" ∧
    toDocId (some "A--B..C.pdf") = "doc-a-b-c" ∧
    toDocId (some "My  File!.txt") = "doc-my-file-" ∧
    toDocId (some "notes") = "doc-notes" :=
  ⟨rfl, rfl, rfl, rfl⟩

/-! ### Claims about `getBestText` -/

/-- Counterexample to claim C1 as stated: an object whose only candidate
field is `data.text` (resp. `data.result`) does not yield that field's
value, because the source nests only `answer`, `output` and `message` under
`data`; both fall through to the pretty-printed JSON fallback. -/
theorem claim1_counterexample :
    getBestText (some (.obj [("data", .obj [("text", .str "t")])])) ≠ "t" ∧
    getBestText (some (.obj [("data", .obj [("result", .str "r")])])) ≠ "r" :=
  ⟨by decide, by decide⟩

/-- Claim C1 as amended: `getBestText` probes, in fixed priority order, the
top-level fields `answer, output, message, text, result`, then only
`answer, output, message` nested under `data`, returning the first present
truthy value coerced to a string; an object whose only candidate field is
`data.text` or `data.result` instead yields the pretty-printed JSON of the
whole value. -/
theorem claim1_probe_order :
    getBestText (some (.obj [("answer", .str "a"), ("output", .str "b")])) = "a" ∧
    getBestText (some (.obj [("output", .str "y"), ("message", .str "m")])) = "y" ∧
    getBestText (some (.obj [("message", .str "m"), ("text", .str "t")])) = "m" ∧
    getBestText (some (.obj [("text", .str "t"), ("result", .str "r")])) = "t" ∧
    getBestText (some (.obj [("result", .str "r"),
      ("data", .obj [("answer", .str "z")])])) = "r" ∧
    getBestText (some (.obj [("data",
      .obj [("answer", .str "z"), ("output", .str "o")])])) = "z" ∧
    getBestText (some (.obj [("data",
      .obj [("output", .str "o"), ("message", .str "m")])])) = "o" ∧
    getBestText (some (.obj [("data", .obj [("message", .str "m")])])) = "m" ∧
    getBestText (some (.obj [("data", .obj [("text", .str "t")])])) =
      jsStringify (.obj [("data", .obj [("text", .str "t")])]) ∧
    getBestText (some (.obj [("data", .obj [("result", .str "r")])])) =
      jsStringify (.obj [("data", .obj [("result", .str "r")])]) ∧
    getBestText (some (.obj [("answer", .num 7)])) = "7" :=
  ⟨rfl, rfl, rfl, rfl, rfl, rfl, rfl, rfl, rfl, rfl, rfl⟩

/-- Claim C5: `getBestText` is total on JSON-safe values and returns a
string — absent or falsy input yields `""`, string input is returned
unchanged, and when no candidate field is found the value is pretty-printed
as JSON.  Totality holds by construction: the modelled serializer is total
on the acyclic `Json` type, so the source's `catch`-and-coerce branch is
never reached for JSON-safe input. -/
theorem claim5_total :
    getBestText none = "" ∧
    (∀ s, getBestText (some (.str s)) = s) ∧
    (∀ d, jsTruthy d = false → getBestText (some d) = "") ∧
    (∀ d, jsTruthy d = true → (∀ s, d ≠ .str s) → bestCand d = none →
      getBestText (some d) = jsStringify d) := by
  refine ⟨rfl, fun s => ?_, fun d h => ?_, fun d h1 h2 h3 => ?_⟩
  · by_cases h : s = ""
    · subst h; rfl
    · simp [getBestText, jsTruthy, h]
  · simp [getBestText, h]
  · cases d with
    | str s => exact absurd rfl (h2 s)
    | null => simp_all [jsTruthy]
    | bool b => simp [getBestText, h1, h3]
    | num n => simp [getBestText, h1, h3]
    | arr es => simp [getBestText, h1, h3]
    | obj ms => simp [getBestText, h1, h3]

/-- Witness for C5: a nonempty string is returned unchanged, the falsy
value `null` yields `""`, and the empty array has no candidate fields and
pretty-prints as `[]`. -/
theorem claim5_witness :
    getBestText (some (.str "plain")) = "plain" ∧
    getBestText (some .null) = "" ∧
    getBestText (some (.arr [])) = jsStringify (.arr []) :=
  ⟨claim5_total.2.1 "plain",
   claim5_total.2.2.1 .null rfl,
   claim5_total.2.2.2 (.arr []) rfl (fun _ h => Json.noConfusion h) rfl⟩

/-- Claim C9: the top-level falsy non-string values `0` and `false` yield
the empty string rather than their JSON rendering, and a candidate field
holding `0` or `false` is skipped in the probe order. -/
theorem claim9_falsy :
    getBestText (some (.num 0)) = "" ∧
    getBestText (some (.bool false)) = "" ∧
    getBestText (some (.obj [("answer", .num 0), ("output", .str "b")])) = "b" ∧
    getBestText (some (.obj [("answer", .bool false), ("output", .str "b")])) = "b" ∧
    ("" : String) ≠ "0" ∧ ("" : String) ≠ "false" :=
  ⟨rfl, rfl, rfl, rfl, by decide, by decide⟩

/-! ### Claims about the upload-index and ask workflows -/

/-- Counterexample to claim C2 as stated: a `/ask` response with status 500
does not make the question submission fail — the body is parsed, stored as
the raw response, and displayed through `getBestText`. -/
theorem claim2_counterexample :
    (handleAsk { initialState with question := "q" }
       (.ok ⟨500, .ok (.obj [("answer", .str "x")])⟩)).1.answer = "x" ∧
    (handleAsk { initialState with question := "q" }
       (.ok ⟨500, .ok (.obj [("answer", .str "x")])⟩)).1.raw =
      .obj [("answer", .str "x")] ∧
    respOk ⟨500, .ok (.obj [("answer", .str "x")])⟩ = false :=
  ⟨rfl, rfl, rfl⟩

/-- Claim C2 as amended: the upload and index calls fail on a non-success
status with an error message embedding the numeric status code (not the
response body), while the ask/chat call never consults the status and
returns the parsed body regardless. -/
theorem claim2_error_paths :
    (∀ (st : AppState) (f : FileModel) (ixRes : FetchOutcome) (r : HttpResp),
      st.selectedFile = some f → respOk r = false →
      (handleUpload st (.ok r) ixRes).1.extracted =
        .str ("⚠️ " ++ ("Upload failed: " ++ toString r.status))) ∧
    (∀ (st : AppState) (f : FileModel) (r : HttpResp) (data : Json)
        (ix : HttpResp) (docId : String),
      st.selectedFile = some f → respOk r = true → r.body = .ok data →
      st.autoIndex = true →
      jsTrimTruthy (jsOr (jsGet data "text") (.str "")) = .ok true →
      toDocIdDyn (jsOr (jsGet data "filename") (.str f.name)) = .ok docId →
      respOk ix = false →
      (handleUpload st (.ok r) (.ok ix)).1.extracted =
        .str ("⚠️ " ++ ("Index failed: " ++ toString ix.status))) ∧
    (∀ (st : AppState) (r : HttpResp) (j : Json),
      jsTrim st.question ≠ "" → r.body = .ok j →
      (handleAsk st (.ok r)).1.answer = getBestText (some j) ∧
      (handleAsk st (.ok r)).1.raw = j) := by
  refine ⟨fun st f ixRes r hf hok => ?_,
          fun st f r data ix docId hf hok hb hAuto hT hD hix => ?_,
          fun st r j hq hb => ?_⟩
  · simp [handleUpload, hf, hok, uploadFail]
  · simp [handleUpload, hf, hok, hb, hAuto, hT, hD, hix, uploadFail]
  · constructor <;> simp [handleAsk, hq, hb]

/-- Witness for C2 at concrete states and responses: a 404 upload, a 503
index after a successful extraction, and a 500 ask response. -/
theorem claim2_witness :
    (handleUpload { initialState with selectedFile := some ⟨"a.txt"⟩ }
       (.ok ⟨404, .ok .null⟩) (.ok ⟨200, .ok .null⟩)).1.extracted =
      .str ("⚠️ " ++ ("Upload failed: " ++ toString (404 : Nat))) ∧
    (handleUpload { initialState with selectedFile := some ⟨"a.txt"⟩ }
       (.ok ⟨200, .ok (.obj [("text", .str "hello"), ("filename", .str "a.txt")])⟩)
       (.ok ⟨503, .ok .null⟩)).1.extracted =
      .str ("⚠️ " ++ ("Index failed: " ++ toString (503 : Nat))) ∧
    (handleAsk { initialState with question := "q" }
       (.ok ⟨500, .ok (.str "hi")⟩)).1.answer = getBestText (some (.str "hi")) :=
  ⟨claim2_error_paths.1 _ _ _ _ rfl rfl,
   claim2_error_paths.2.1 _ _ _ _ _ _ rfl rfl rfl rfl rfl rfl rfl,
   (claim2_error_paths.2.2 _ _ _ (by decide) rfl).1⟩

/-- Counterexample to claim C3 as stated: when indexing fails after a
successful extraction of `"hello"`, the displayed extracted-text field holds
the error message, not the extracted text. -/
theorem claim3_counterexample :
    (handleUpload { initialState with selectedFile := some ⟨"Report v1.pdf"⟩ }
       (.ok ⟨200, .ok (.obj [("text", .str "hello"),
         ("filename", .str "Report v1.pdf")])⟩)
       (.ok ⟨500, .ok (.obj [])⟩)).1.extracted = .str "⚠️ Index failed: 500" ∧
    ("⚠️ Index failed: 500" : String) ≠ "hello" :=
  ⟨rfl, by decide⟩

/-- Claim C3 as amended: if the indexing call fails (network rejection or
non-success status) after extraction succeeded, the workflow ends with the
error message replacing the extracted text in the displayed field, the busy
flag cleared, and the session indexed-count unchanged. -/
theorem claim3_index_failure
    (st : AppState) (f : FileModel) (r : HttpResp) (data : Json)
    (docId : String) (ixRes : FetchOutcome)
    (hf : st.selectedFile = some f) (hok : respOk r = true)
    (hb : r.body = .ok data) (hAuto : st.autoIndex = true)
    (hT : jsTrimTruthy (jsOr (jsGet data "text") (.str "")) = .ok true)
    (hD : toDocIdDyn (jsOr (jsGet data "filename") (.str f.name)) = .ok docId)
    (hfail : (∃ msg, ixRes = .error msg) ∨
      ∃ ix, ixRes = .ok ix ∧ respOk ix = false) :
    (∃ m, (handleUpload st (.ok r) ixRes).1.extracted = .str ("⚠️ " ++ m)) ∧
    (handleUpload st (.ok r) ixRes).1.indexedCount = st.indexedCount ∧
    (handleUpload st (.ok r) ixRes).1.uploading = false := by
  rcases hfail with ⟨msg, rfl⟩ | ⟨ix, rfl, hix⟩
  · refine ⟨⟨msg, ?_⟩, ?_, ?_⟩ <;>
      simp [handleUpload, hf, hok, hb, hAuto, hT, hD, uploadFail]
  · refine ⟨⟨"Index failed: " ++ toString ix.status, ?_⟩, ?_, ?_⟩ <;>
      simp [handleUpload, hf, hok, hb, hAuto, hT, hD, hix, uploadFail]

/-- Witness for C3: indexing returns status 500 after `"hello"` was
extracted; the count stays at its initial value. -/
theorem claim3_witness :
    (∃ m, (handleUpload { initialState with selectedFile := some ⟨"a.txt"⟩ }
       (.ok ⟨200, .ok (.obj [("text", .str "hello"), ("filename", .str "a.txt")])⟩)
       (.ok ⟨500, .ok (.obj [])⟩)).1.extracted = .str ("⚠️ " ++ m)) ∧
    (handleUpload { initialState with selectedFile := some ⟨"a.txt"⟩ }
       (.ok ⟨200, .ok (.obj [("text", .str "hello"), ("filename", .str "a.txt")])⟩)
       (.ok ⟨500, .ok (.obj [])⟩)).1.indexedCount =
      ({ initialState with selectedFile := some ⟨"a.txt"⟩ } : AppState).indexedCount ∧
    (handleUpload { initialState with selectedFile := some ⟨"a.txt"⟩ }
       (.ok ⟨200, .ok (.obj [("text", .str "hello"), ("filename", .str "a.txt")])⟩)
       (.ok ⟨500, .ok (.obj [])⟩)).1.uploading = false :=
  claim3_index_failure _ _ _ _ _ _ rfl rfl rfl rfl rfl rfl
    (.inr ⟨⟨500, .ok (.obj [])⟩, rfl, rfl⟩)

/-- Counterexample to claim C4 as stated: a successful indexing response
with `upserted: 0` increments the counter by the batch size 1, not by the
reported count 0. -/
theorem claim4_counterexample :
    (handleUpload { initialState with selectedFile := some ⟨"a.txt"⟩ }
       (.ok ⟨200, .ok (.obj [("text", .str "hello"), ("filename", .str "a.txt")])⟩)
       (.ok ⟨200, .ok (.obj [("upserted", .num 0)])⟩)).1.indexedCount = .num 1 ∧
    (1 : Int) ≠ 0 :=
  ⟨rfl, by decide⟩

/-- Claim C4 as amended: on a successful indexing call the counter is
incremented by the server-reported `upserted` value only when that field is
present and truthy; when it is absent, zero, or otherwise falsy, the counter
is incremented by the batch size (1) instead. -/
theorem claim4_upsert_increment
    (st : AppState) (f : FileModel) (r : HttpResp) (data : Json)
    (docId : String) (ix : HttpResp) (j : Json)
    (hf : st.selectedFile = some f) (hok : respOk r = true)
    (hb : r.body = .ok data) (hAuto : st.autoIndex = true)
    (hT : jsTrimTruthy (jsOr (jsGet data "text") (.str "")) = .ok true)
    (hD : toDocIdDyn (jsOr (jsGet data "filename") (.str f.name)) = .ok docId)
    (hix : respOk ix = true) (hj : ix.body = .ok j) :
    (∀ u, jsGet j "upserted" = some u → jsTruthy u = true →
      (handleUpload st (.ok r) (.ok ix)).1.indexedCount =
        jsAdd st.indexedCount u) ∧
    (jsGet j "upserted" = none →
      (handleUpload st (.ok r) (.ok ix)).1.indexedCount =
        jsAdd st.indexedCount (.num 1)) ∧
    (∀ u, jsGet j "upserted" = some u → jsTruthy u = false →
      (handleUpload st (.ok r) (.ok ix)).1.indexedCount =
        jsAdd st.indexedCount (.num 1)) := by
  refine ⟨fun u hu htr => ?_, fun hu => ?_, fun u hu htr => ?_⟩
  · simp [handleUpload, hf, hok, hb, hAuto, hT, hD, hix, hj, hu, htr,
      uploadFinish, jsOr_some]
  · simp [handleUpload, hf, hok, hb, hAuto, hT, hD, hix, hj, hu,
      uploadFinish, jsOr_none]
  · simp [handleUpload, hf, hok, hb, hAuto, hT, hD, hix, hj, hu, htr,
      uploadFinish, jsOr_some]

/-- Witness for C4: `upserted: 3` increments the fresh session counter to 3,
and an absent `upserted` increments it by the batch size to 1. -/
theorem claim4_witness :
    (handleUpload { initialState with selectedFile := some ⟨"a.txt"⟩ }
       (.ok ⟨200, .ok (.obj [("text", .str "hello"), ("filename", .str "a.txt")])⟩)
       (.ok ⟨200, .ok (.obj [("upserted", .num 3)])⟩)).1.indexedCount =
      jsAdd ({ initialState with selectedFile := some ⟨"a.txt"⟩ } : AppState).indexedCount
        (.num 3) ∧
    (handleUpload { initialState with selectedFile := some ⟨"a.txt"⟩ }
       (.ok ⟨200, .ok (.obj [("text", .str "hello"), ("filename", .str "a.txt")])⟩)
       (.ok ⟨200, .ok (.obj [])⟩)).1.indexedCount =
      jsAdd ({ initialState with selectedFile := some ⟨"a.txt"⟩ } : AppState).indexedCount
        (.num 1) :=
  ⟨(claim4_upsert_increment { initialState with selectedFile := some ⟨"a.txt"⟩ }
      ⟨"a.txt"⟩ ⟨200, .ok (.obj [("text", .str "hello"), ("filename", .str "a.txt")])⟩
      (.obj [("text", .str "hello"), ("filename", .str "a.txt")])
      (toDocId (some "a.txt"))
      ⟨200, .ok (.obj [("upserted", .num 3)])⟩ (.obj [("upserted", .num 3)])
      rfl rfl rfl rfl rfl rfl rfl rfl).1 (.num 3) rfl rfl,
   (claim4_upsert_increment { initialState with selectedFile := some ⟨"a.txt"⟩ }
      ⟨"a.txt"⟩ ⟨200, .ok (.obj [("text", .str "hello"), ("filename", .str "a.txt")])⟩
      (.obj [("text", .str "hello"), ("filename", .str "a.txt")])
      (toDocId (some "a.txt"))
      ⟨200, .ok (.obj [])⟩ (.obj [])
      rfl rfl rfl rfl rfl rfl rfl rfl).2.1 rfl⟩

/-- Claim C7: after a successful extraction, if auto-index is disabled or
the extracted text is empty or whitespace-only, the index fetch is never
issued (the only call is the upload itself) and the indexed-count is
unchanged, whatever the index endpoint would have answered. -/
theorem claim7_no_index
    (st : AppState) (f : FileModel) (r : HttpResp) (data : Json)
    (ixRes : FetchOutcome)
    (hf : st.selectedFile = some f) (hok : respOk r = true)
    (hb : r.body = .ok data)
    (hcond : st.autoIndex = false ∨
      jsTrimTruthy (jsOr (jsGet data "text") (.str "")) = .ok false) :
    (handleUpload st (.ok r) ixRes).2 = [Call.upload f] ∧
    (handleUpload st (.ok r) ixRes).1.indexedCount = st.indexedCount := by
  rcases hcond with hA | hT
  · constructor <;> simp [handleUpload, hf, hok, hb, hA, uploadFinish]
  · by_cases hA : st.autoIndex = false
    · constructor <;> simp [handleUpload, hf, hok, hb, hA, uploadFinish]
    · have hA2 : st.autoIndex = true := by
        revert hA; cases st.autoIndex <;> simp
      constructor <;> simp [handleUpload, hf, hok, hb, hA2, hT, uploadFinish]

/-- Witness for C7 in both configurations: auto-index disabled with
nonempty text, and auto-index enabled with whitespace-only text. -/
theorem claim7_witness :
    ((handleUpload { initialState with selectedFile := some ⟨"a.txt"⟩, autoIndex := false }
       (.ok ⟨200, .ok (.obj [("text", .str "hello")])⟩)
       (.ok ⟨200, .ok (.obj [("upserted", .num 3)])⟩)).2 = [Call.upload ⟨"a.txt"⟩] ∧
     (handleUpload { initialState with selectedFile := some ⟨"a.txt"⟩, autoIndex := false }
       (.ok ⟨200, .ok (.obj [("text", .str "hello")])⟩)
       (.ok ⟨200, .ok (.obj [("upserted", .num 3)])⟩)).1.indexedCount =
       ({ initialState with selectedFile := some ⟨"a.txt"⟩, autoIndex := false } :
         AppState).indexedCount) ∧
    ((handleUpload { initialState with selectedFile := some ⟨"a.txt"⟩ }
       (.ok ⟨200, .ok (.obj [("text", .str "  ")])⟩)
       (.ok ⟨200, .ok (.obj [("upserted", .num 3)])⟩)).2 = [Call.upload ⟨"a.txt"⟩] ∧
     (handleUpload { initialState with selectedFile := some ⟨"a.txt"⟩ }
       (.ok ⟨200, .ok (.obj [("text", .str "  ")])⟩)
       (.ok ⟨200, .ok (.obj [("upserted", .num 3)])⟩)).1.indexedCount =
       ({ initialState with selectedFile := some ⟨"a.txt"⟩ } : AppState).indexedCount) :=
  ⟨claim7_no_index { initialState with selectedFile := some ⟨"a.txt"⟩, autoIndex := false }
      ⟨"a.txt"⟩ ⟨200, .ok (.obj [("text", .str "hello")])⟩
      (.obj [("text", .str "hello")])
      (.ok ⟨200, .ok (.obj [("upserted", .num 3)])⟩) rfl rfl rfl (.inl rfl),
   claim7_no_index { initialState with selectedFile := some ⟨"a.txt"⟩ }
      ⟨"a.txt"⟩ ⟨200, .ok (.obj [("text", .str "  ")])⟩
      (.obj [("text", .str "  ")])
      (.ok ⟨200, .ok (.obj [("upserted", .num 3)])⟩) rfl rfl rfl (.inr rfl)⟩

/-- Claim C8: invoking the ask workflow with an empty or whitespace-only
question issues no network call and leaves the entire state — in particular
the prior answer and prior raw response — untouched. -/
theorem claim8_blank_question (st : AppState) (res : FetchOutcome)
    (h : jsTrim st.question = "") : handleAsk st res = (st, []) := by
  simp [handleAsk, h]

/-- Witness for C8: a whitespace-only question with a previous answer and
raw response in place is a strict no-op. -/
theorem claim8_witness :
    handleAsk { initialState with question := "   ", answer := "prev", raw := .str "r" }
      (.ok ⟨200, .ok (.obj [("answer", .str "new")])⟩) =
    ({ initialState with question := "   ", answer := "prev", raw := .str "r" }, []) :=
  claim8_blank_question _ _ (by decide)

end PolicyNavigator
